import Mathlib

/-!
# Verification of the gondola rope-way equilibrium model

Shallow embedding of the core numerical model of this repository
(`realistic_model.py`, `simulation_01_general.py`,
`graph_trajectory_counterweight.py`): the static-rail catenary solver, the
counterweight sizing, the four-residual loaded-equilibrium system, the
gondola-position solver with its boundary policy, and the trajectory sweep
with its static-rail fallback.

The external numerical routines (`scipy.optimize.root_scalar` with Brent's
method and `scipy.optimize.root` with Levenberg-Marquardt) are modelled as
abstract function parameters: a `RootFinder` maps a scalar function and a
bracket to a real, and a `NonlinearSolver` maps a residual function and an
initial guess to either an exception or a result carrying a success flag and
a solution vector.  Everything the repository itself does with those calls
(guards, branches, seeds, fallbacks) is embedded faithfully.
-/

namespace RopeWay

/-- System parameters of a run (section  1 of each script):
span `D`, top-station height `H`, gondola mass `m_g`, rope linear density
`lam` and gravity `g`. -/
structure SystemParameters where
  D : ℝ
  H : ℝ
  m_g : ℝ
  lam : ℝ
  g : ℝ

/-- The 4-vector of unknowns of the loaded-equilibrium system
(`vars` in `realistic_model.system`): gondola height, horizontal tension,
and the two segment shift constants. -/
structure Vars where
  y_g : ℝ
  H_tension : ℝ
  c1 : ℝ
  c2 : ℝ

/-- Result object of a `scipy.optimize.root` call: a success flag and the
solution vector (`sol.success`, `sol.x`). -/
structure RootResult where
  success : Bool
  x : Vars

/-- Abstract model of `scipy.optimize.root`: takes the residual function and
the initial guess, and either raises an exception (`Except.error`) or
returns a `RootResult`. -/
def NonlinearSolver : Type :=
  (Vars → List ℝ) → Vars → Except Unit RootResult

/-- Abstract model of `scipy.optimize.root_scalar(..., bracket=[lo, hi],
method=brentq)`: takes the scalar function and the bracket ends and returns
a real. -/
def RootFinder : Type :=
  (ℝ → ℝ) → ℝ → ℝ → ℝ

/-- `find_catenary_constant` of `realistic_model.py` (identical to `find_a`
in `simulation_01_general.py` and `graph_trajectory_counterweight.py`):
the residual of the unloaded boundary equation `H = a*(cosh(D/a) - 1)`,
guarded by the sentinel `1e9` for non-positive `a`. -/
noncomputable def find_catenary_constant (D H a : ℝ) : ℝ :=
  if a ≤ 0 then 1000000000 else a * (Real.cosh (D / a) - 1) - H

/-- The static-rail solve: `root_scalar(find_catenary_constant,
bracket=[lo, hi], method=brentq).root`, with the scipy call abstracted as a
`RootFinder`.  Only `D` and `H` of the parameters enter the residual. -/
noncomputable def a_static_run (rf : RootFinder) (lo hi : ℝ)
    (p : SystemParameters) : ℝ :=
  rf (find_catenary_constant p.D p.H) lo hi

/-- `M_counterweight = a_static * lam` (counterweight sizing,
`realistic_model.py` line 26, `M_cw = a_static * lam` in the other two
scripts). -/
noncomputable def M_counterweight_run (rf : RootFinder) (lo hi : ℝ)
    (p : SystemParameters) : ℝ :=
  a_static_run rf lo hi p * p.lam

/-- Base tension `T_base = M_counterweight * g` (printed as
`M_counterweight * g` in `realistic_model.py` line 31). -/
noncomputable def T_base_run (rf : RootFinder) (lo hi : ℝ)
    (p : SystemParameters) : ℝ :=
  M_counterweight_run rf lo hi p * p.g

/-- The catenary constant derived from a tension iterate:
`a = H_current / (lam * g)` inside `system`. -/
noncomputable def cat_a (H_tension lam g : ℝ) : ℝ :=
  H_tension / (lam * g)

/-- The 4-residual function `system` of
`realistic_model.solve_gondola_position` (lines 60-97; the same residuals
appear in `simulation_01_general.solve_state`): continuity of the left
segment at the gondola, the right segment reaching the top tower, the kink
force balance, and the counterweight tension constraint. -/
noncomputable def system (x_g M_cw D H m_g lam g : ℝ) (v : Vars) : List ℝ :=
  let a := cat_a v.H_tension lam g
  let y_left_end := a * Real.cosh ((x_g - v.c1) / a) - a * Real.cosh ((-v.c1) / a)
  let v_shift := v.y_g - a * Real.cosh ((x_g - v.c2) / a)
  let y_right_end := a * Real.cosh ((D - v.c2) / a) + v_shift
  let slope_L_gondola := Real.sinh ((x_g - v.c1) / a)
  let slope_R_gondola := Real.sinh ((x_g - v.c2) / a)
  let slope_L_anchor := Real.sinh ((0 - v.c1) / a)
  let force_err := v.H_tension * (slope_R_gondola - slope_L_gondola) - (m_g * g)
  let tension_err := v.H_tension * Real.sqrt (1 + slope_L_anchor ^ 2) - (M_cw * g)
  [v.y_g - y_left_end, H - y_right_end, force_err, tension_err]

/-- The initial guess of `realistic_model.solve_gondola_position`
(lines 99-102): `vars_guess = [(H/D)*x_g, M_cw*g, 0, D]`. -/
noncomputable def vars_guess (x_g M_cw D H g : ℝ) : Vars :=
  { y_g := (H / D) * x_g, H_tension := M_cw * g, c1 := 0, c2 := D }

/-- The initial guess of `simulation_01_general.solve_state` (line 43):
`guess = [(Tower_H/D)*x_g - 5, M_cw*g, 0, D]`. -/
noncomputable def solve_state_guess (x_g M_cw D H g : ℝ) : Vars :=
  { y_g := (H / D) * x_g - 5, H_tension := M_cw * g, c1 := 0, c2 := D }

/-- `solve_gondola_position` of `realistic_model.py` (lines 35-111):
boundary policy for `x_g <= 0` and `x_g >= D`, otherwise one nonlinear
solve from the fresh guess; returns `sol.x[0]` on success, `None`
(modelled `none`) on failure or on any raised exception. -/
noncomputable def solve_gondola_position (solver : NonlinearSolver)
    (x_g M_cw D H m_g lam g : ℝ) : Option ℝ :=
  if x_g ≤ 0 then some 0
  else if D ≤ x_g then some H
  else
    match solver (system x_g M_cw D H m_g lam g) (vars_guess x_g M_cw D H g) with
    | Except.ok sol => if sol.success then some sol.x.y_g else none
    | Except.error _ => none

/-- The static unloaded rail height `a_static * (cosh(x/a_static) - 1)`
(the `y_static` formula and also the fallback value, lines 122 and 131). -/
noncomputable def staticHeight (a_static x : ℝ) : ℝ :=
  a_static * (Real.cosh (x / a_static) - 1)

/-- One sample of the trajectory sweep (lines 126-133): the solver value,
or the static rail height as fallback when the solve returned `None`. -/
noncomputable def trajSample (solver : NonlinearSolver)
    (a_static x_g M_cw D H m_g lam g : ℝ) : ℝ :=
  (solve_gondola_position solver x_g M_cw D H m_g lam g).getD
    (staticHeight a_static x_g)

/-- The full trajectory sweep `y_trajectory` over a grid of samples
(lines 126-133). -/
noncomputable def y_trajectory (solver : NonlinearSolver) (xs : List ℝ)
    (a_static M_cw D H m_g lam g : ℝ) : List ℝ :=
  xs.map (fun x => trajSample solver a_static x M_cw D H m_g lam g)

/-- `np.linspace(lo, hi, n)`: `n` equally spaced points from `lo` to `hi`
inclusive. -/
noncomputable def linspace (lo hi : ℝ) (n : ℕ) : List ℝ :=
  (List.range n).map (fun i : ℕ => lo + (hi - lo) * (i : ℝ) / ((n : ℝ) - 1))

/-- A `scipy.optimize.root` call that raises (models the `except` path). -/
def errorSolver : NonlinearSolver := fun _ _ => Except.error ()

/-- A solver run that converges, at every guess, to a solution whose height
component is exactly the static rail height at `x = 1` for
`a_static = 1`. -/
noncomputable def okStaticSolver : NonlinearSolver :=
  fun _ _ => Except.ok { success := true,
                         x := { y_g := Real.cosh 1 - 1, H_tension := 0, c1 := 0, c2 := 0 } }

/-- A solver run that reports success with a negative horizontal tension
(`H_tension = -5`) in its solution vector. -/
noncomputable def negTensionSolver : NonlinearSolver :=
  fun _ _ => Except.ok { success := true,
                         x := { y_g := 3, H_tension := -5, c1 := 0, c2 := 1 } }

/-! ## Helper lemmas -/

theorem solve_at_left_boundary (solver : NonlinearSolver)
    (x_g M_cw D H m_g lam g : ℝ) (hx : x_g ≤ 0) :
    solve_gondola_position solver x_g M_cw D H m_g lam g = some 0 := by
  unfold solve_gondola_position
  rw [if_pos hx]

theorem solve_at_right_boundary (solver : NonlinearSolver)
    (x_g M_cw D H m_g lam g : ℝ) (hx0 : ¬ x_g ≤ 0) (hxD : D ≤ x_g) :
    solve_gondola_position solver x_g M_cw D H m_g lam g = some H := by
  unfold solve_gondola_position
  rw [if_neg hx0, if_pos hxD]

theorem solve_interior_error (solver : NonlinearSolver)
    (x_g M_cw D H m_g lam g : ℝ) (e : Unit)
    (hx0 : ¬ x_g ≤ 0) (hxD : ¬ D ≤ x_g)
    (hraise : solver (system x_g M_cw D H m_g lam g)
        (vars_guess x_g M_cw D H g) = Except.error e) :
    solve_gondola_position solver x_g M_cw D H m_g lam g = none := by
  unfold solve_gondola_position
  rw [if_neg hx0, if_neg hxD, hraise]

theorem linspace_head (lo hi : ℝ) (n : ℕ) (hn : n ≠ 0) :
    (linspace lo hi n).head? = some lo := by
  unfold linspace
  rw [List.head?_map]
  obtain ⟨m, rfl⟩ := Nat.exists_eq_succ_of_ne_zero hn
  rw [List.range_succ_eq_map]
  simp

theorem linspace_getLast (lo hi : ℝ) (n : ℕ) :
    (linspace lo hi (n + 2)).getLast? = some hi := by
  unfold linspace
  rw [List.getLast?_map, List.range_succ (n + 1), List.getLast?_concat]
  simp only [Option.map_some']
  congr 1
  have hne : ((n : ℝ) + 1) ≠ 0 := by positivity
  push_cast
  rw [show ((n : ℝ) + 2 - 1) = (n : ℝ) + 1 from by ring, mul_div_assoc,
    div_self hne, mul_one]
  ring

theorem trajSample_left (solver : NonlinearSolver)
    (a_static M_cw D H m_g lam g : ℝ) :
    trajSample solver a_static 0 M_cw D H m_g lam g = 0 := by
  unfold trajSample
  rw [solve_at_left_boundary solver 0 M_cw D H m_g lam g le_rfl, Option.getD_some]

theorem trajSample_right (solver : NonlinearSolver)
    (a_static M_cw D H m_g lam g : ℝ) (hD : 0 < D) :
    trajSample solver a_static D M_cw D H m_g lam g = H := by
  unfold trajSample
  rw [solve_at_right_boundary solver D M_cw D H m_g lam g (not_le.mpr hD) le_rfl,
    Option.getD_some]

/-! ## Claims -/

/-- Claim C1: for parameters with `D > 0` and target height `H` achievable
by some `a > 0`, any value `a_static` accepted by the bracketed static-rail
solve (residual of `find_catenary_constant` below the tolerance, with the
tolerance below the `1e9` guard sentinel) is strictly positive and
satisfies the unloaded boundary equation to within that tolerance. -/
theorem static_rail_residual (D H a_static tol : ℝ)
    (hD : 0 < D)
    (hach : ∃ a : ℝ, 0 < a ∧ a * (Real.cosh (D / a) - 1) = H)
    (htol : tol ≤ 1000000000)
    (hres : |find_catenary_constant D H a_static| < tol) :
    0 < a_static ∧ |a_static * (Real.cosh (D / a_static) - 1) - H| < tol := by
  by_cases hpos : a_static ≤ 0
  · exfalso
    have hsent : find_catenary_constant D H a_static = 1000000000 := by
      simp [find_catenary_constant, hpos]
    rw [hsent] at hres
    have : |(1000000000 : ℝ)| = 1000000000 := by norm_num
    rw [this] at hres
    linarith
  · push_neg at hpos
    refine ⟨hpos, ?_⟩
    have heq : find_catenary_constant D H a_static
        = a_static * (Real.cosh (D / a_static) - 1) - H := by
      simp [find_catenary_constant, not_le.mpr hpos]
    rwa [heq] at hres

/-- Witness for C1 at `D = 1`, `H = cosh 1 - 1`, `a_static = 1`,
`tol = 1`. -/
theorem static_rail_residual_witness :
    0 < (1 : ℝ) ∧ |(1 : ℝ) * (Real.cosh (1 / 1) - 1) - (Real.cosh 1 - 1)| < 1 :=
  static_rail_residual 1 (Real.cosh 1 - 1) 1 1 (by norm_num)
    ⟨1, by norm_num, by norm_num⟩ (by norm_num)
    (by
      have h1 : ¬ (1 : ℝ) ≤ 0 := by norm_num
      simp only [find_catenary_constant, if_neg h1]
      norm_num)

/-- Claim C7: the counterweight sizing is the pure derivation
`M_cw = a_static * lam` and `T_base = M_cw * g` from the static-rail
solver's output, for every root finder, bracket and parameter set. -/
theorem counterweight_sizing_pure (rf : RootFinder) (lo hi : ℝ)
    (p : SystemParameters) :
    M_counterweight_run rf lo hi p = a_static_run rf lo hi p * p.lam ∧
    T_base_run rf lo hi p = M_counterweight_run rf lo hi p * p.g :=
  ⟨rfl, rfl⟩

/-- Claim C10: the static-rail solve and the derived counterweight mass
depend only on `D`, `H` and `lam`: two parameter sets agreeing on those
three fields produce identical `a_static` and `M_cw`, whatever their
`m_g` and `g`. -/
theorem counterweight_mass_independent (rf : RootFinder) (lo hi : ℝ)
    (p q : SystemParameters)
    (hD : p.D = q.D) (hH : p.H = q.H) (hlam : p.lam = q.lam) :
    a_static_run rf lo hi p = a_static_run rf lo hi q ∧
    M_counterweight_run rf lo hi p = M_counterweight_run rf lo hi q := by
  constructor
  · unfold a_static_run
    rw [hD, hH]
  · unfold M_counterweight_run a_static_run
    rw [hD, hH, hlam]

/-- Witness for C10: two runs sharing `D = 200`, `H = 50`, `lam = 5` but
with different gondola masses (`500` vs `0`) and different gravities
(`9.81` vs `1`) produce the same `a_static` and counterweight mass. -/
theorem counterweight_mass_independent_witness :
    ((⟨200, 50, 500, 5, 981 / 100⟩ : SystemParameters).m_g ≠
        (⟨200, 50, 0, 5, 1⟩ : SystemParameters).m_g) ∧
    a_static_run (fun f lo _ => lo + f lo) (1 / 10) 10000 ⟨200, 50, 500, 5, 981 / 100⟩ =
      a_static_run (fun f lo _ => lo + f lo) (1 / 10) 10000 ⟨200, 50, 0, 5, 1⟩ ∧
    M_counterweight_run (fun f lo _ => lo + f lo) (1 / 10) 10000 ⟨200, 50, 500, 5, 981 / 100⟩ =
      M_counterweight_run (fun f lo _ => lo + f lo) (1 / 10) 10000 ⟨200, 50, 0, 5, 1⟩ :=
  ⟨by norm_num,
    (counterweight_mass_independent (fun f lo _ => lo + f lo) (1 / 10) 10000
      ⟨200, 50, 500, 5, 981 / 100⟩ ⟨200, 50, 0, 5, 1⟩ rfl rfl rfl).1,
    (counterweight_mass_independent (fun f lo _ => lo + f lo) (1 / 10) 10000
      ⟨200, 50, 500, 5, 981 / 100⟩ ⟨200, 50, 0, 5, 1⟩ rfl rfl rfl).2⟩

/-- Claim C3: for every parameter set (with span `D > 0` as the data model
requires), the solver returns `y_g = 0` exactly for `x_g ≤ 0` and
`y_g = H` exactly for `x_g ≥ D`, whatever the nonlinear solver does; and
the 50-sample trajectory sweep over `linspace 0 D 50` starts at exactly 0
and ends at exactly `H`. -/
theorem boundary_policy_exact (solver : NonlinearSolver)
    (x_lo x_hi M_cw D H m_g lam g a_static : ℝ)
    (hlo : x_lo ≤ 0) (hhi : D ≤ x_hi) (hD : 0 < D) :
    solve_gondola_position solver x_lo M_cw D H m_g lam g = some 0 ∧
    solve_gondola_position solver x_hi M_cw D H m_g lam g = some H ∧
    (y_trajectory solver (linspace 0 D 50) a_static M_cw D H m_g lam g).head?
      = some 0 ∧
    (y_trajectory solver (linspace 0 D 50) a_static M_cw D H m_g lam g).getLast?
      = some H := by
  refine ⟨solve_at_left_boundary solver x_lo M_cw D H m_g lam g hlo,
    solve_at_right_boundary solver x_hi M_cw D H m_g lam g
      (not_le.mpr (lt_of_lt_of_le hD hhi)) hhi, ?_, ?_⟩
  · unfold y_trajectory
    rw [List.head?_map, linspace_head 0 D 50 (by norm_num)]
    simp only [Option.map_some']
    exact congrArg some (trajSample_left solver a_static M_cw D H m_g lam g)
  · unfold y_trajectory
    rw [List.getLast?_map, show (50 : ℕ) = 48 + 2 from by norm_num,
      linspace_getLast]
    simp only [Option.map_some']
    exact congrArg some (trajSample_right solver a_static M_cw D H m_g lam g hD)

/-- Witness for C3 at `D = 2`, `H = 7`, with the raising solver. -/
theorem boundary_policy_exact_witness :
    solve_gondola_position errorSolver 0 1 2 7 0 1 1 = some 0 ∧
    solve_gondola_position errorSolver 2 1 2 7 0 1 1 = some 7 ∧
    (y_trajectory errorSolver (linspace 0 2 50) 1 1 2 7 0 1 1).head? = some 0 ∧
    (y_trajectory errorSolver (linspace 0 2 50) 1 1 2 7 0 1 1).getLast? = some 7 :=
  boundary_policy_exact errorSolver 0 2 1 2 7 0 1 1 1 le_rfl (by norm_num)
    (by norm_num)

/-- Claim C5: whenever the nonlinear solve for a sample reports
non-convergence or fails (the solver call returned `None`), the trajectory
sweep records for that sample exactly the static unloaded rail height
`a_static * (cosh(x_g/a_static) - 1)`, and the sweep produces one value per
grid sample. -/
theorem fallback_is_static_rail (solver : NonlinearSolver) (xs : List ℝ)
    (a_static x_g M_cw D H m_g lam g : ℝ)
    (h : solve_gondola_position solver x_g M_cw D H m_g lam g = none) :
    trajSample solver a_static x_g M_cw D H m_g lam g
      = a_static * (Real.cosh (x_g / a_static) - 1) ∧
    (y_trajectory solver xs a_static M_cw D H m_g lam g).length = xs.length := by
  constructor
  · unfold trajSample
    rw [h, Option.getD_none]
    rfl
  · unfold y_trajectory
    simp

/-- Witness for C5: a raising solver call at the interior sample `x_g = 1`
of a span `D = 2` falls back to the static rail height, over the grid
`[0, 1, 2]`. -/
theorem fallback_is_static_rail_witness :
    trajSample errorSolver 1 1 1 2 0 0 1 1 = (1 : ℝ) * (Real.cosh (1 / 1) - 1) ∧
    (y_trajectory errorSolver [0, 1, 2] 1 1 2 0 0 1 1).length
      = [(0 : ℝ), 1, 2].length :=
  fallback_is_static_rail errorSolver [0, 1, 2] 1 1 1 2 0 0 1 1
    (solve_interior_error errorSolver 1 1 2 0 0 1 1 () (by norm_num) (by norm_num)
      rfl)

/-- Claim C9: `solve_gondola_position` never propagates an exception of the
nonlinear solver: a raised exception at an interior sample yields `none`
(the Python `None` via the blanket `except`), and the sweep still produces
a value for every sample of the grid. -/
theorem no_exception_propagation (solver : NonlinearSolver) (xs : List ℝ)
    (a_static x_g M_cw D H m_g lam g : ℝ) (e : Unit)
    (h0 : 0 < x_g) (hD : x_g < D)
    (hraise : solver (system x_g M_cw D H m_g lam g)
        (vars_guess x_g M_cw D H g) = Except.error e) :
    solve_gondola_position solver x_g M_cw D H m_g lam g = none ∧
    (y_trajectory solver xs a_static M_cw D H m_g lam g).length = xs.length := by
  refine ⟨solve_interior_error solver x_g M_cw D H m_g lam g e
    (not_le.mpr h0) (not_le.mpr hD) hraise, ?_⟩
  · unfold y_trajectory
    simp

/-- Witness for C9 with the always-raising solver at `x_g = 1`, `D = 2`,
grid `[0, 1, 2]`. -/
theorem no_exception_propagation_witness :
    solve_gondola_position errorSolver 1 1 2 0 0 1 1 = none ∧
    (y_trajectory errorSolver [0, 1, 2] 1 1 2 0 0 1 1).length
      = [(0 : ℝ), 1, 2].length :=
  no_exception_propagation errorSolver [0, 1, 2] 1 1 1 2 0 0 1 1 ()
    (by norm_num) (by norm_num) rfl

/-- Claim C2: any iterate `(y_g, H_tension, c1, c2)` whose residual vector
under `system` is componentwise below the tolerance — in particular any
solution the nonlinear solver reports as converged with that residual
criterion — satisfies, simultaneously and within that tolerance: left-segment
continuity at the gondola, the right segment (offset to match the gondola)
passing through `(D, H)`, the kink force balance
`H_tension*(slope_right - slope_left) = m_g*g`, and the left-anchor tension
magnitude `H_tension*sqrt(1 + slope_left(0)^2) = M_cw*g`. -/
theorem equilibrium_residuals (x_g M_cw D H m_g lam g tol : ℝ) (v : Vars)
    (h : ∀ r ∈ system x_g M_cw D H m_g lam g v, |r| < tol) :
    |(cat_a v.H_tension lam g * Real.cosh ((x_g - v.c1) / cat_a v.H_tension lam g)
        - cat_a v.H_tension lam g * Real.cosh ((-v.c1) / cat_a v.H_tension lam g))
      - v.y_g| < tol ∧
    |(cat_a v.H_tension lam g * Real.cosh ((D - v.c2) / cat_a v.H_tension lam g)
        + (v.y_g - cat_a v.H_tension lam g
            * Real.cosh ((x_g - v.c2) / cat_a v.H_tension lam g)))
      - H| < tol ∧
    |v.H_tension * (Real.sinh ((x_g - v.c2) / cat_a v.H_tension lam g)
        - Real.sinh ((x_g - v.c1) / cat_a v.H_tension lam g)) - m_g * g| < tol ∧
    |v.H_tension
        * Real.sqrt (1 + Real.sinh ((0 - v.c1) / cat_a v.H_tension lam g) ^ 2)
      - M_cw * g| < tol := by
  simp only [system, List.mem_cons, List.not_mem_nil, or_false,
    forall_eq_or_imp, forall_eq] at h
  obtain ⟨h1, h2, h3, h4⟩ := h
  refine ⟨?_, ?_, h3, h4⟩
  · rw [abs_sub_comm]
    exact h1
  · rw [abs_sub_comm]
    exact h2

/-- Witness for C2 at the exactly-solvable configuration `x_g = 0`,
`M_cw = 1`, `D = 0`, `H = 0`, `m_g = 0`, `lam = 1`, `g = 1`, `tol = 1`,
iterate `(0, 1, 0, 0)`: every residual is exactly zero. -/
theorem equilibrium_residuals_witness :
    |(cat_a 1 1 1 * Real.cosh (((0 : ℝ) - 0) / cat_a 1 1 1)
        - cat_a 1 1 1 * Real.cosh ((-(0 : ℝ)) / cat_a 1 1 1)) - 0| < 1 ∧
    |(cat_a 1 1 1 * Real.cosh (((0 : ℝ) - 0) / cat_a 1 1 1)
        + (0 - cat_a 1 1 1 * Real.cosh (((0 : ℝ) - 0) / cat_a 1 1 1))) - 0| < 1 ∧
    |(1 : ℝ) * (Real.sinh (((0 : ℝ) - 0) / cat_a 1 1 1)
        - Real.sinh (((0 : ℝ) - 0) / cat_a 1 1 1)) - 0 * 1| < 1 ∧
    |(1 : ℝ) * Real.sqrt (1 + Real.sinh (((0 : ℝ) - 0) / cat_a 1 1 1) ^ 2)
      - 1 * 1| < 1 :=
  equilibrium_residuals 0 1 0 0 0 1 1 1 ⟨0, 1, 0, 0⟩ (by
    have hsys : system 0 1 0 0 0 1 1 ⟨0, 1, 0, 0⟩ = [0, 0, 0, 0] := by
      norm_num [system, cat_a, Real.cosh_zero, Real.sinh_zero, Real.sqrt_one]
    intro r hr
    rw [hsys] at hr
    simp only [List.mem_cons, List.not_mem_nil, or_false, or_self] at hr
    rw [hr]
    norm_num)

/-- Claim C4 counterexample: the code enforces no tension positivity.  A
solver run reporting success with `H_tension = -5` in its solution vector is
accepted unchanged (`solve_gondola_position` returns its `y_g = 3`), and the
residual function `system` evaluates an iterate with `H_tension = -1`
(catenary constant `a = -1 ≤ 0`) to ordinary catenary residuals — its first
component is `cosh 1 - 1` — instead of rejecting it. -/
theorem solver_accepts_nonpositive_tension :
    solve_gondola_position negTensionSolver 1 1 2 0 0 1 1 = some 3 ∧
    ((-5 : ℝ) ≤ 0) ∧
    (system 1 1 2 0 0 1 1 ⟨0, -1, 0, 0⟩).head? = some (Real.cosh 1 - 1) := by
  refine ⟨?_, by norm_num, ?_⟩
  · unfold solve_gondola_position negTensionSolver
    rw [if_neg (by norm_num), if_neg (by norm_num)]
    rfl
  · simp only [system, List.head?_cons, Option.some.injEq]
    norm_num [cat_a, Real.cosh_neg]
    ring

/-- Claim C4 amended: the iteration never rejects or re-seeds non-positive
tension — `solve_gondola_position` returns the solver's `y_g` whenever the
solver reports success, with no check on the sign of the solution's
`H_tension`, so a converged solution need not have `H_tension > 0`. -/
theorem solver_success_accepted_unconditionally (solver : NonlinearSolver)
    (x_g M_cw D H m_g lam g : ℝ) (r : RootResult)
    (h0 : 0 < x_g) (hD : x_g < D)
    (hs : solver (system x_g M_cw D H m_g lam g) (vars_guess x_g M_cw D H g)
        = Except.ok r)
    (hsucc : r.success = true) :
    solve_gondola_position solver x_g M_cw D H m_g lam g = some r.x.y_g := by
  unfold solve_gondola_position
  rw [if_neg (not_le.mpr h0), if_neg (not_le.mpr hD), hs]
  simp [hsucc]

/-- Witness for the amended C4: the success report with `H_tension = -5 < 0`
is accepted. -/
theorem solver_success_accepted_unconditionally_witness :
    ((-5 : ℝ) < 0) ∧
    solve_gondola_position negTensionSolver 1 1 2 0 0 1 1 = some 3 :=
  ⟨by norm_num,
    solver_success_accepted_unconditionally negTensionSolver 1 1 2 0 0 1 1
      ⟨true, ⟨3, -5, 0, 1⟩⟩ (by norm_num) (by norm_num) rfl rfl⟩

/-- Claim C6 counterexample: the sweep output records no solver status.  A
run whose solver converges at the single interior sample `x = 1` to exactly
the static rail height and a run whose solver fails there produce identical
sweep outputs, although the first converged (`some` result) and the second
fell back (`none`). -/
theorem status_not_recorded :
    y_trajectory okStaticSolver [1] 1 1 2 0 0 1 1
      = y_trajectory errorSolver [1] 1 1 2 0 0 1 1 ∧
    solve_gondola_position okStaticSolver 1 1 2 0 0 1 1
      = some (Real.cosh 1 - 1) ∧
    solve_gondola_position errorSolver 1 1 2 0 0 1 1 = none := by
  have hok : solve_gondola_position okStaticSolver 1 1 2 0 0 1 1
      = some (Real.cosh 1 - 1) := by
    unfold solve_gondola_position okStaticSolver
    rw [if_neg (by norm_num), if_neg (by norm_num)]
    rfl
  have herr : solve_gondola_position errorSolver 1 1 2 0 0 1 1 = none :=
    solve_interior_error errorSolver 1 1 2 0 0 1 1 () (by norm_num) (by norm_num)
      rfl
  refine ⟨?_, hok, herr⟩
  unfold y_trajectory
  simp only [List.map_cons, List.map_nil]
  congr 1
  unfold trajSample
  rw [hok, herr, Option.getD_some, Option.getD_none]
  unfold staticHeight
  norm_num

/-- Claim C6 amended: the sweep output is a bare list of heights with no
per-sample status: every solver whose per-sample results coincide with the
static rail value wherever they converge produces an output identical to
that of an always-failing (fully degraded) run, so a consumer of the output
cannot tell converged samples from fallen-back ones. -/
theorem output_forgets_status (solver : NonlinearSolver) (xs : List ℝ)
    (a_static M_cw D H m_g lam g : ℝ)
    (h : ∀ x ∈ xs, solve_gondola_position solver x M_cw D H m_g lam g = none ∨
        solve_gondola_position solver x M_cw D H m_g lam g
          = some (staticHeight a_static x)) :
    y_trajectory solver xs a_static M_cw D H m_g lam g
      = y_trajectory errorSolver xs a_static M_cw D H m_g lam g := by
  unfold y_trajectory
  refine List.map_congr_left (fun x hx => ?_)
  unfold trajSample
  by_cases hx0 : x ≤ 0
  · rw [solve_at_left_boundary solver x M_cw D H m_g lam g hx0,
      solve_at_left_boundary errorSolver x M_cw D H m_g lam g hx0]
  · by_cases hxD : D ≤ x
    · rw [solve_at_right_boundary solver x M_cw D H m_g lam g hx0 hxD,
        solve_at_right_boundary errorSolver x M_cw D H m_g lam g hx0 hxD]
    · rw [solve_interior_error errorSolver x M_cw D H m_g lam g () hx0 hxD rfl,
        Option.getD_none]
      rcases h x hx with hn | hs
      · rw [hn, Option.getD_none]
      · rw [hs, Option.getD_some]

/-- Witness for the amended C6: the converged-to-static run over the grid
`[1]` is indistinguishable from the always-failing run. -/
theorem output_forgets_status_witness :
    y_trajectory okStaticSolver [1] 1 1 2 0 0 1 1
      = y_trajectory errorSolver [1] 1 1 2 0 0 1 1 :=
  output_forgets_status okStaticSolver [1] 1 1 2 0 0 1 1 (by
    intro x hx
    rw [List.mem_singleton] at hx
    subst hx
    right
    unfold solve_gondola_position okStaticSolver
    rw [if_neg (by norm_num), if_neg (by norm_num)]
    unfold staticHeight
    norm_num)

/-- Claim C8 counterexample: at `x_g = 100`, `D = 200`, `H = 50`,
`realistic_model`'s seed for `y_g` is exactly the linear interpolation
`(H/D)*x_g = 25` — no sag bias is subtracted — while
`simulation_01_general`'s seed is `25 - 5`; the claimed single seed formula
(interpolation minus a small sag bias) does not hold for
`solve_gondola_position`'s guess. -/
theorem seed_has_no_sag_bias :
    (vars_guess 100 1 200 50 1).y_g = (50 / 200 : ℝ) * 100 ∧
    (solve_state_guess 100 1 200 50 1).y_g = (50 / 200 : ℝ) * 100 - 5 ∧
    (vars_guess 100 1 200 50 1).y_g ≠ (solve_state_guess 100 1 200 50 1).y_g := by
  refine ⟨rfl, rfl, ?_⟩
  unfold vars_guess solve_state_guess
  norm_num

/-- Claim C8 amended: each solve's initial guess is rebuilt fresh from the
current sample alone — `realistic_model` seeds
`[(H/D)*x_g, M_cw*g, 0, D]` (plain linear interpolation, no sag bias) and
`simulation_01_general` seeds `[(H/D)*x_g - 5, M_cw*g, 0, D]` — and every
sweep output sample is a function of its own grid point only (no carry-over
between samples). -/
theorem initial_guess_fresh (solver : NonlinearSolver) (xs : List ℝ)
    (a_static x_g M_cw D H m_g lam g : ℝ) (i : ℕ) :
    vars_guess x_g M_cw D H g
      = { y_g := (H / D) * x_g, H_tension := M_cw * g, c1 := 0, c2 := D } ∧
    solve_state_guess x_g M_cw D H g
      = { y_g := (H / D) * x_g - 5, H_tension := M_cw * g, c1 := 0, c2 := D } ∧
    (y_trajectory solver xs a_static M_cw D H m_g lam g)[i]?
      = (xs[i]?).map (fun x => trajSample solver a_static x M_cw D H m_g lam g) := by
  refine ⟨rfl, rfl, ?_⟩
  unfold y_trajectory
  exact List.getElem?_map _ xs i

end RopeWay
